import Mathlib

/-!
# Verification of the workify scoring/feedback pipeline

Shallow embedding of the scoring and caching code of the workify
repository (`src/lib/feedbackAnalytics.ts`, `src/lib/cache.ts`,
`src/app/api/jobs/process/[id]/route.ts`, and the feedback-generation
POST handler), together with theorems settling the specification claims
about it.

JavaScript numbers are modelled as rationals (`ℚ`); `Math.round` is
`⌊x + 1/2⌋` (round half toward +∞), matching JS semantics.  Fallible
external calls (OpenAI requests, JSON parsing) are modelled by an
explicit environment of `Except`-valued results.
-/

set_option autoImplicit false

namespace Workify

/-- JS `Math.round`: rounds half toward positive infinity. -/
def jsRound (q : ℚ) : ℚ := (⌊q + 1/2⌋ : ℚ)

/-- JS falsy-default `x || d` on an optional number: a missing or zero
(falsy) value falls back to the default `d`. -/
def jsOrQ (v : Option ℚ) (d : ℚ) : ℚ :=
  match v with
  | none => d
  | some s => if s = 0 then d else s

/-- JS `String.prototype.toLowerCase`, restricted to the per-character
lowering relevant here. -/
def jsToLower (s : String) : String := ⟨s.data.map Char.toLower⟩

/-- `pre` is a leading segment of `l` (used to model JS `includes`). -/
def leadSeg : List Char → List Char → Bool
  | [], _ => true
  | _ :: _, [] => false
  | a :: as, b :: bs => a == b && leadSeg as bs

/-- `needle` occurs contiguously inside `hay`. -/
def hasSub (needle : List Char) : List Char → Bool
  | [] => leadSeg needle []
  | c :: t => leadSeg needle (c :: t) || hasSub needle t

/-- JS `s.includes(sub)`. -/
def strIncludes (s sub : String) : Bool := hasSub sub.data s.data

/-- `feedbackAnalytics.ts levenshteinDistance`: the DP fills
`matrix[j][i] = min(matrix[j][i-1]+1, matrix[j-1][i]+1, matrix[j-1][i-1]+indicator)`
with border rows/columns `0..length`; this is exactly the following
recurrence on the two character lists. -/
def lev : List Char → List Char → Nat
  | [], ys => ys.length
  | x :: xs, [] => (x :: xs).length
  | x :: xs, y :: ys =>
    min (lev (x :: xs) ys + 1)
      (min (lev xs (y :: ys) + 1)
        (lev xs ys + (if x = y then 0 else 1)))

/-- `levenshteinDistance(str1, str2)` from `feedbackAnalytics.ts`. -/
def levenshteinDistance (str1 str2 : String) : Nat := lev str1.data str2.data

/-- `calculateStringSimilarity(str1, str2)` from `feedbackAnalytics.ts`:
`(longer.length - distance) / longer.length`, and `1.0` for two empty
strings. -/
def calculateStringSimilarity (str1 str2 : String) : ℚ :=
  let longer := if str1.length > str2.length then str1 else str2
  let shorter := if str1.length > str2.length then str2 else str1
  if longer.length = 0 then 1
  else ((longer.length : ℚ) - (levenshteinDistance longer shorter : ℚ)) / (longer.length : ℚ)

/-- `calculateSkillCoverage(resumeSkills, jobSkills)` from
`feedbackAnalytics.ts`: exact (substring either way) and partial
(similarity strictly above `0.7`) matches of lowercased job skills
against lowercased resume skills; the score is
`round(uniqueMatches / jobSkills.length * 100)`, and `100` when the job
list is empty. -/
def calculateSkillCoverage (resumeSkills jobSkills : List String) : ℚ :=
  if jobSkills.length = 0 then 100
  else
    let resumeSkillsLower := resumeSkills.map jsToLower
    let jobSkillsLower := jobSkills.map jsToLower
    let exactMatches := jobSkillsLower.filter (fun jobSkill =>
      resumeSkillsLower.any (fun resumeSkill =>
        strIncludes resumeSkill jobSkill || strIncludes jobSkill resumeSkill))
    let partialMatches := jobSkillsLower.filter (fun jobSkill =>
      resumeSkillsLower.any (fun resumeSkill =>
        calculateStringSimilarity jobSkill resumeSkill > 7/10))
    let totalMatches := (exactMatches ++ partialMatches).dedup.length
    jsRound ((totalMatches : ℚ) / (jobSkills.length : ℚ) * 100)

/-- The specification's reading of the fuzzy threshold: similarity *at
least* `0.7` (the source compares strictly).  Kept verbatim parallel to
`calculateSkillCoverage` for the comparison. -/
def calculateSkillCoverageSpec (resumeSkills jobSkills : List String) : ℚ :=
  if jobSkills.length = 0 then 100
  else
    let resumeSkillsLower := resumeSkills.map jsToLower
    let jobSkillsLower := jobSkills.map jsToLower
    let exactMatches := jobSkillsLower.filter (fun jobSkill =>
      resumeSkillsLower.any (fun resumeSkill =>
        strIncludes resumeSkill jobSkill || strIncludes jobSkill resumeSkill))
    let partialMatches := jobSkillsLower.filter (fun jobSkill =>
      resumeSkillsLower.any (fun resumeSkill =>
        calculateStringSimilarity jobSkill resumeSkill ≥ 7/10))
    let totalMatches := (exactMatches ++ partialMatches).dedup.length
    jsRound ((totalMatches : ℚ) / (jobSkills.length : ℚ) * 100)

/-- A lowercased job skill is matched when some lowercased resume skill
contains it (or vice versa), or some lowercased resume skill is strictly
more than `0.7`-similar to it. -/
def jobSkillMatched (resumeSkills : List String) (jobSkillLower : String) : Bool :=
  (resumeSkills.map jsToLower).any (fun resumeSkill =>
    strIncludes resumeSkill jobSkillLower || strIncludes jobSkillLower resumeSkill) ||
  (resumeSkills.map jsToLower).any (fun resumeSkill =>
    calculateStringSimilarity jobSkillLower resumeSkill > 7/10)

/-- `calculateExperienceAlignment` from `feedbackAnalytics.ts`, modelled on
the parsed LLM response: the `score` field of the parsed JSON (absent on
parse failure or when the key is missing), defaulted through JS `|| 50`
and clamped with `Math.min(100, Math.max(0, ·))`. -/
def calculateExperienceAlignment (scoreField : Option ℚ) : ℚ :=
  min 100 (max 0 (jsOrQ scoreField 50))

/-- `FeedbackInsight` from `feedbackAnalytics.ts`. -/
structure FeedbackInsight where
  type : String
  description : String
  confidence : Option ℚ
  severity : Option String
  deriving DecidableEq

/-- `FeedbackRecommendation` from `feedbackAnalytics.ts`. -/
structure FeedbackRecommendation where
  type : String
  action : String
  priority : String
  deriving DecidableEq

/-- `FeedbackScores` from `feedbackAnalytics.ts`. -/
structure FeedbackScores where
  selection_probability : ℚ
  semantic_similarity_score : ℚ
  skill_coverage_score : ℚ
  experience_alignment_score : ℚ
  strengths : List FeedbackInsight
  gaps : List FeedbackInsight
  recommendations : List FeedbackRecommendation
  deriving DecidableEq

/-- Parsed result of the insight-generation LLM call (each array
defaulted to `[]` on missing keys, as in the source). -/
structure InsightPayload where
  strengths : List FeedbackInsight
  gaps : List FeedbackInsight
  recommendations : List FeedbackRecommendation
  deriving DecidableEq

/-- Outcomes of the external calls made inside `generateFeedback`: skill
extraction on the two texts, the experience-alignment call (carrying the
`score` field of its parsed response), and the insight-generation call.
`.error ()` means the step threw. -/
structure LLMEnv where
  resumeSkills : Except Unit (List String)
  jobSkills : Except Unit (List String)
  experienceScoreField : Except Unit (Option ℚ)
  insights : Except Unit InsightPayload

/-- All steps of the environment succeeded. -/
def LLMEnv.succeeded (env : LLMEnv) : Prop :=
  (∃ a, env.resumeSkills = .ok a) ∧ (∃ a, env.jobSkills = .ok a) ∧
  (∃ a, env.experienceScoreField = .ok a) ∧ (∃ a, env.insights = .ok a)

/-- `generateFeedback` from `feedbackAnalytics.ts`.  The `try` block
computes the weighted probability from the three scores and clamps it;
the `catch` block returns the conservative fallback
(`round(semanticSimilarity * 0.8)`, defaults of 50, empty arrays). -/
def generateFeedback (resumeText jobDescription : String) (semanticSimilarity : ℚ)
    (env : LLMEnv) : FeedbackScores :=
  match env.resumeSkills, env.jobSkills, env.experienceScoreField, env.insights with
  | .ok resumeSkills, .ok jobSkills, .ok scoreField, .ok insights =>
    let skillCoverageScore := calculateSkillCoverage resumeSkills jobSkills
    let experienceAlignmentScore := calculateExperienceAlignment scoreField
    let selectionProbability := jsRound
      (semanticSimilarity * (6/10) + skillCoverageScore * (3/10) +
        experienceAlignmentScore * (1/10))
    { selection_probability := min 100 (max 0 selectionProbability)
      semantic_similarity_score := semanticSimilarity
      skill_coverage_score := skillCoverageScore
      experience_alignment_score := experienceAlignmentScore
      strengths := insights.strengths
      gaps := insights.gaps
      recommendations := insights.recommendations }
  | _, _, _, _ =>
    { selection_probability := jsRound (semanticSimilarity * (8/10))
      semantic_similarity_score := semanticSimilarity
      skill_coverage_score := 50
      experience_alignment_score := 50
      strengths := []
      gaps := []
      recommendations := [] }

/-! ### The in-memory TTL cache (`cache.ts`) -/

/-- JS falsy-default `x || d` on an optional integer (used for
`ttl || this.config.defaultTTL`). -/
def jsOrInt (v : Option Int) (d : Int) : Int :=
  match v with
  | none => d
  | some t => if t = 0 then d else t

/-- `CacheEntry<T>` from `cache.ts`. -/
structure CacheEntry (α : Type) where
  data : α
  timestamp : Int
  ttl : Int
  deriving DecidableEq

/-- `CacheConfig` from `cache.ts`. -/
structure CacheConfig where
  defaultTTL : Int
  maxSize : Nat
  deriving DecidableEq

/-- JS `Map.set`: replace in place when the key is present, else append
(JS `Map` iterates in insertion order). -/
def mapSet {α : Type} (l : List (String × α)) (k : String) (v : α) : List (String × α) :=
  if l.any (fun p => p.1 == k) then
    l.map (fun p => if p.1 == k then (k, v) else p)
  else l ++ [(k, v)]

/-- JS `Map.delete`: drop the entry with the given key. -/
def mapDelete {α : Type} (l : List (String × α)) (k : String) : List (String × α) :=
  l.eraseP (fun p => p.1 == k)

/-- `MemoryCache` from `cache.ts`: its `Map` as an insertion-ordered
association list plus the configuration. -/
structure MemoryCache (α : Type) where
  entries : List (String × CacheEntry α)
  config : CacheConfig
  deriving DecidableEq

/-- The `MemoryCache` constructor: empty map, given configuration (the
`setInterval` sweep is modelled as explicit `cleanup` operations). -/
def MemoryCache.empty (α : Type) (config : CacheConfig) : MemoryCache α :=
  ⟨[], config⟩

/-- `MemoryCache.set`: when at (or beyond) capacity, delete the first
key of the map (`keys().next().value`), then insert the new entry with
`ttl || defaultTTL`; `now` is the ambient `Date.now()`. -/
def MemoryCache.set {α : Type} (c : MemoryCache α) (key : String) (data : α)
    (now : Int) (ttl : Option Int) : MemoryCache α :=
  let c1 :=
    if c.config.maxSize ≤ c.entries.length then
      match c.entries with
      | [] => c
      | (oldestKey, _) :: _ => { c with entries := mapDelete c.entries oldestKey }
    else c
  { c1 with entries := mapSet c1.entries key ⟨data, now, jsOrInt ttl c.config.defaultTTL⟩ }

/-- `MemoryCache.get`: returns the stored value if present and fresh,
deleting (and missing) an expired entry. -/
def MemoryCache.get {α : Type} (c : MemoryCache α) (key : String) (now : Int) :
    Option α × MemoryCache α :=
  match c.entries.find? (fun p => p.1 == key) with
  | none => (none, c)
  | some (_, e) =>
    if e.ttl < now - e.timestamp then (none, { c with entries := mapDelete c.entries key })
    else (some e.data, c)

/-- `MemoryCache.delete`. -/
def MemoryCache.del {α : Type} (c : MemoryCache α) (key : String) : MemoryCache α :=
  { c with entries := mapDelete c.entries key }

/-- `MemoryCache.cleanup`: the periodic sweep removing expired entries. -/
def MemoryCache.cleanup {α : Type} (c : MemoryCache α) (now : Int) : MemoryCache α :=
  { c with entries := c.entries.filter (fun p => ¬ p.2.ttl < now - p.2.timestamp) }

/-- The cache operations a client can perform. -/
inductive CacheOp (α : Type) where
  | set (key : String) (data : α) (now : Int) (ttl : Option Int)
  | get (key : String) (now : Int)
  | del (key : String)
  | cleanup (now : Int)

/-- State transition for one cache operation. -/
def MemoryCache.applyOp {α : Type} (c : MemoryCache α) : CacheOp α → MemoryCache α
  | .set k v now ttl => c.set k v now ttl
  | .get k now => (c.get k now).2
  | .del k => c.del k
  | .cleanup now => c.cleanup now

/-! ### The job-processing and feedback routes -/

/-- A row of the `jobs` table (the fields the routes touch). -/
structure Job where
  id : String
  user_id : String
  description : String
  status : String
  fit_score : Option ℚ
  deriving DecidableEq

/-- A row of the `tailors` table. -/
structure TailorRow where
  id : String
  job_id : String
  user_id : String
  tailored_resume : String
  cover_letter : String
  portfolio : String
  fit_score : Option ℚ
  token_usage : ℚ
  status : String
  deriving DecidableEq

/-- A row of the `feedback` table. -/
structure FeedbackRow where
  user_id : String
  job_id : String
  tailor_id : String
  selection_probability : ℚ
  semantic_similarity_score : ℚ
  skill_coverage_score : ℚ
  experience_alignment_score : ℚ
  strengths : List FeedbackInsight
  gaps : List FeedbackInsight
  recommendations : List FeedbackRecommendation
  model_version : String
  deriving DecidableEq

/-- The persistent state the two routes read and write. -/
structure JobsDB where
  jobs : List Job
  tailors : List TailorRow
  feedback : List FeedbackRow
  deriving DecidableEq

/-- Result of `generateTailoredContent` (opaque generated documents). -/
structure TailoredContent where
  tailoredResume : String
  coverLetter : String
  portfolio : String
  tokenUsage : ℚ
  deriving DecidableEq

/-- What the processing route answers (HTTP status plus the JSON body
fields relevant here). -/
structure ProcessResponse where
  httpStatus : Nat
  fitScore : Option ℚ
  respStatus : Option String
  tailorId : Option String
  deriving DecidableEq

/-- `POST /api/jobs/process/[id]` from the point where the job and the
resume have been fetched: compute `fitScore = round(similarity * 100)`,
persist it on the job, return early with `status: 'not_a_good_fit'`
below 70, otherwise insert one Tailor (`pending_review`) and set the
job's status to `processed` (the asynchronous feedback call is modelled
separately by `generateFeedbackAsync`). -/
def processJob (db : JobsDB) (job : Job) (similarity : ℚ)
    (content : TailoredContent) (newTailorId : String) : JobsDB × ProcessResponse :=
  let fitScore := jsRound (similarity * 100)
  let db1 := { db with jobs := db.jobs.map (fun j =>
    if j.id == job.id then { j with fit_score := some fitScore } else j) }
  if fitScore < 70 then
    (db1, ⟨200, some fitScore, some "not_a_good_fit", none⟩)
  else
    let newTailor : TailorRow :=
      ⟨newTailorId, job.id, job.user_id, content.tailoredResume, content.coverLetter,
        content.portfolio, some fitScore, content.tokenUsage, "pending_review"⟩
    let db2 := { db1 with tailors := db1.tailors ++ [newTailor] }
    let db3 := { db2 with jobs := db2.jobs.map (fun j =>
      if j.id == job.id then { j with status := "processed" } else j) }
    (db3, ⟨200, some fitScore, some "processed", some newTailorId⟩)

/-- Build the `feedback` row inserted by both feedback writers. -/
def mkFeedbackRow (userId jobId tailorId : String) (s : FeedbackScores) : FeedbackRow :=
  ⟨userId, jobId, tailorId, s.selection_probability, s.semantic_similarity_score,
    s.skill_coverage_score, s.experience_alignment_score, s.strengths, s.gaps,
    s.recommendations, "v1.0"⟩

/-- `generateFeedbackAsync` from the processing route: return silently
when feedback for the tailor already exists or the tailor is missing,
otherwise generate feedback (passing `tailor.fit_score || 0`) and insert
one row. -/
def generateFeedbackAsync (db : JobsDB) (tailorId resumeText jobDescription : String)
    (env : LLMEnv) : JobsDB :=
  if db.feedback.any (fun f => f.tailor_id == tailorId) then db
  else
    match db.tailors.find? (fun t => t.id == tailorId) with
    | none => db
    | some tailor =>
      let scores := generateFeedback resumeText jobDescription
        (jsOrQ tailor.fit_score 0) env
      { db with feedback := db.feedback ++
        [mkFeedbackRow tailor.user_id tailor.job_id tailorId scores] }

/-- The explicit feedback-generation `POST` handler (in the applications
route file): 404 when the tailor is not the user's, 409 when feedback
already exists, otherwise insert one row and answer 200. -/
def feedbackGeneratePost (db : JobsDB) (userId tailorId resumeText jobDescription : String)
    (env : LLMEnv) : JobsDB × Nat :=
  match db.tailors.find? (fun t => t.id == tailorId && t.user_id == userId) with
  | none => (db, 404)
  | some tailor =>
    if db.feedback.any (fun f => f.tailor_id == tailorId) then (db, 409)
    else
      let scores := generateFeedback resumeText jobDescription
        (jsOrQ tailor.fit_score 0) env
      ({ db with feedback := db.feedback ++
        [mkFeedbackRow userId tailor.job_id tailorId scores] }, 200)

/-! ### Properties of the Levenshtein recurrence -/

theorem lev_nil_left (ys : List Char) : lev [] ys = ys.length := by
  cases ys <;> simp [lev]

theorem lev_nil_right (xs : List Char) : lev xs [] = xs.length := by
  cases xs <;> simp [lev]

theorem lev_self (xs : List Char) : lev xs xs = 0 := by
  induction xs with
  | nil => simp [lev]
  | cons x xs ih => simp [lev, ih]

theorem lev_comm (xs : List Char) : ∀ ys : List Char, lev xs ys = lev ys xs := by
  induction xs with
  | nil => intro ys; rw [lev_nil_left, lev_nil_right]
  | cons x xs ih =>
    intro ys
    induction ys with
    | nil => rw [lev_nil_left, lev_nil_right]
    | cons y ys ih2 =>
      have hind : (if x = y then 0 else 1) = (if y = x then 0 else 1) := by
        by_cases h : x = y
        · simp [h]
        · rw [if_neg h, if_neg (fun hyx => h hyx.symm)]
      simp only [lev]
      rw [ih2, ih (y :: ys), ih ys, hind]
      omega

/-- The recurrence agrees with Mathlib's (efficiently evaluable)
`levenshtein` at the unit cost structure. -/
theorem lev_eq_levenshtein (xs : List Char) :
    ∀ ys : List Char, lev xs ys = levenshtein Levenshtein.defaultCost xs ys := by
  induction xs with
  | nil =>
    intro ys
    induction ys with
    | nil => rw [lev_nil_left, levenshtein_nil_nil]; rfl
    | cons y ys ih2 =>
      rw [lev_nil_left, levenshtein_nil_cons] at *
      simp [← ih2, lev_nil_left]
      omega
  | cons x xs ih =>
    intro ys
    induction ys with
    | nil =>
      rw [lev_nil_right, levenshtein_cons_nil, ← ih [], lev_nil_right]
      simp [List.length_cons]; omega
    | cons y ys ih2 =>
      rw [levenshtein_cons_cons]
      simp only [lev]
      rw [ih (y :: ys), ih ys, ih2]
      simp only [Levenshtein.defaultCost_delete, Levenshtein.defaultCost_insert,
        Levenshtein.defaultCost_substitute]
      omega

/-! ### Properties of `calculateStringSimilarity` -/

theorem calculateStringSimilarity_self (a : String) : calculateStringSimilarity a a = 1 := by
  simp only [calculateStringSimilarity, levenshteinDistance, gt_iff_lt, lt_irrefl, if_false,
    lev_self, Nat.cast_zero, sub_zero]
  split
  · rfl
  · next h =>
    have hne : (a.length : ℚ) ≠ 0 := by exact_mod_cast h
    field_simp

theorem calculateStringSimilarity_comm (a b : String) :
    calculateStringSimilarity a b = calculateStringSimilarity b a := by
  simp only [calculateStringSimilarity, levenshteinDistance]
  rcases lt_trichotomy a.length b.length with h | h | h
  · rw [if_neg (by omega : ¬ a.length > b.length), if_neg (by omega : ¬ a.length > b.length),
      if_pos (by omega : b.length > a.length), if_pos (by omega : b.length > a.length)]
  · rw [if_neg (by omega : ¬ a.length > b.length), if_neg (by omega : ¬ a.length > b.length),
      if_neg (by omega : ¬ b.length > a.length), if_neg (by omega : ¬ b.length > a.length)]
    rw [lev_comm b.data a.data, show b.length = a.length from h.symm]
  · rw [if_pos (by omega : a.length > b.length), if_pos (by omega : a.length > b.length),
      if_neg (by omega : ¬ b.length > a.length), if_neg (by omega : ¬ b.length > a.length)]

/-- Concrete similarity value: `"abcdefghij"` vs `"abcdefgxyz"` sits exactly
at the `0.7` threshold, which the source compares strictly. -/
theorem sim_boundary_value :
    calculateStringSimilarity "abcdefghij" "abcdefgxyz" = 7/10 := by
  have hd : lev ['a', 'b', 'c', 'd', 'e', 'f', 'g', 'x', 'y', 'z']
      ['a', 'b', 'c', 'd', 'e', 'f', 'g', 'h', 'i', 'j'] = 3 := by
    rw [lev_eq_levenshtein]; decide
  simp only [calculateStringSimilarity, levenshteinDistance]
  norm_num [show "abcdefghij".length = 10 from rfl, show "abcdefgxyz".length = 10 from rfl, hd]

theorem coverage_boundary_eval :
    calculateSkillCoverage ["abcdefgxyz"] ["abcdefghij"] = 0 := by
  have hpart : decide (calculateStringSimilarity "abcdefghij" "abcdefgxyz" > (7:ℚ)/10)
      = false :=
    decide_eq_false (by rw [sim_boundary_value]; norm_num)
  simp only [calculateSkillCoverage, List.map_cons, List.map_nil,
    show jsToLower "abcdefgxyz" = "abcdefgxyz" from by decide,
    show jsToLower "abcdefghij" = "abcdefghij" from by decide,
    List.filter_cons, List.filter_nil, List.any_cons, List.any_nil,
    show strIncludes "abcdefgxyz" "abcdefghij" = false from by decide,
    show strIncludes "abcdefghij" "abcdefgxyz" = false from by decide,
    hpart, Bool.or_false, Bool.false_or, Bool.or_self,
    List.length_cons, List.length_nil]
  norm_num [jsRound]

/-! ### Claim C8 -/

/-- C8: for every pair of strings, the Levenshtein-based string
similarity satisfies `sim(a, a) = 1.0` and `sim(a, b) = sim(b, a)`. -/
theorem similarity_self_and_symm (a b : String) :
    calculateStringSimilarity a a = 1 ∧
    calculateStringSimilarity a b = calculateStringSimilarity b a :=
  ⟨calculateStringSimilarity_self a, calculateStringSimilarity_comm a b⟩

/-! ### Claim C9 -/

/-- C9 counterexample: a parsed `score` field of `-1` is truthy, and the
clamp `Math.min(100, Math.max(0, -1))` makes
`calculateExperienceAlignment` return exactly `0`, so the claim that it
never returns 0 fails as stated. -/
theorem experienceAlignment_zero_counterexample :
    calculateExperienceAlignment (some (-1)) = 0 := by
  norm_num [calculateExperienceAlignment, jsOrQ]

/-- C9 amended: whenever the parsed `score` field is missing or
nonnegative (in particular throughout the documented 0–100 range),
`calculateExperienceAlignment` never returns 0: the falsy values
(missing field or score 0) yield the default 50 rather than 0. -/
theorem experienceAlignment_never_zero (sf : Option ℚ)
    (h : ∀ q, sf = some q → 0 ≤ q) :
    calculateExperienceAlignment sf ≠ 0 ∧
    calculateExperienceAlignment none = 50 ∧
    calculateExperienceAlignment (some 0) = 50 := by
  refine ⟨?_, by norm_num [calculateExperienceAlignment, jsOrQ],
    by norm_num [calculateExperienceAlignment, jsOrQ]⟩
  cases sf with
  | none => norm_num [calculateExperienceAlignment, jsOrQ]
  | some q =>
    have hq0 : 0 ≤ q := h q rfl
    by_cases hq : q = 0
    · norm_num [calculateExperienceAlignment, jsOrQ, hq]
    · have hpos : 0 < q := lt_of_le_of_ne hq0 (Ne.symm hq)
      have hval : calculateExperienceAlignment (some q) = min 100 (max 0 q) := by
        simp [calculateExperienceAlignment, jsOrQ, hq]
      rw [hval, max_eq_right hq0]
      exact (lt_min (by norm_num) hpos).ne'

/-- C9 witness: evaluating the amended theorem at the falsy score 0. -/
theorem experienceAlignment_never_zero_witness :
    calculateExperienceAlignment (some 0) ≠ 0 ∧
    calculateExperienceAlignment none = 50 ∧
    calculateExperienceAlignment (some 0) = 50 :=
  experienceAlignment_never_zero (some 0)
    (fun q hq => by cases hq; norm_num)

/-! ### Claim C3 -/

/-- C3: if any step inside `generateFeedback` throws (in particular the
insight-generation call), the exception is caught and the fallback
`FeedbackScores` is returned: `selection_probability =
round(semantic * 0.8)`, both sub-scores 50, empty insight arrays. -/
theorem generateFeedback_fallback (resumeText jobDescription : String)
    (sem : ℚ) (env : LLMEnv)
    (h : env.resumeSkills = .error () ∨ env.jobSkills = .error () ∨
      env.experienceScoreField = .error () ∨ env.insights = .error ()) :
    generateFeedback resumeText jobDescription sem env =
      { selection_probability := jsRound (sem * (8/10))
        semantic_similarity_score := sem
        skill_coverage_score := 50
        experience_alignment_score := 50
        strengths := []
        gaps := []
        recommendations := [] } := by
  obtain ⟨ea, eb, ec, ed⟩ := env
  cases ea <;> cases eb <;> cases ec <;> cases ed <;> simp_all [generateFeedback]

/-- C3 witness: the insight-generation call throwing while everything
else succeeded still produces the fallback scores. -/
theorem generateFeedback_fallback_witness :
    generateFeedback "resume" "job" 90
      ⟨.ok ["a"], .ok ["a"], .ok (some 50), .error ()⟩ =
      { selection_probability := jsRound (90 * (8/10))
        semantic_similarity_score := 90
        skill_coverage_score := 50
        experience_alignment_score := 50
        strengths := []
        gaps := []
        recommendations := [] } :=
  generateFeedback_fallback "resume" "job" 90 _
    (Or.inr (Or.inr (Or.inr rfl)))

/-! ### Claim C2 -/

/-- C2 counterexample: on the failure-fallback path with a negative
semantic-similarity input (as a negative cosine similarity would
produce), `selection_probability = round(-10 * 0.8) = -8`, outside
`[0, 100]` — the fallback value is not clamped. -/
theorem selection_probability_range_counterexample :
    (generateFeedback "resume" "job" (-10)
      ⟨.error (), .error (), .error (), .error ()⟩).selection_probability = -8 ∧
    ¬ (0 ≤ (generateFeedback "resume" "job" (-10)
      ⟨.error (), .error (), .error (), .error ()⟩).selection_probability) := by
  constructor <;> norm_num [generateFeedback, jsRound]

/-- C2 amended: `selection_probability` lies in `[0, 100]` whenever the
semantic-similarity input itself lies in `[0, 100]`, and on the success
path unconditionally (there the value is clamped); the unclamped
fallback `round(semantic * 0.8)` escapes the range only for semantic
inputs outside `[-0.625, 125.625]`. -/
theorem selection_probability_range (resumeText jobDescription : String)
    (sem : ℚ) (env : LLMEnv)
    (h : (0 ≤ sem ∧ sem ≤ 100) ∨ env.succeeded) :
    0 ≤ (generateFeedback resumeText jobDescription sem env).selection_probability ∧
    (generateFeedback resumeText jobDescription sem env).selection_probability ≤ 100 := by
  obtain ⟨ea, eb, ec, ed⟩ := env
  cases ea <;> cases eb <;> cases ec <;> cases ed <;>
    [skip; skip; skip; skip; skip; skip; skip; skip;
     skip; skip; skip; skip; skip; skip; skip;
     exact ⟨le_min (by norm_num) (le_max_left _ _), min_le_left _ _⟩] <;>
  · rcases h with ⟨h0, h100⟩ | hsucc
    · simp only [generateFeedback, jsRound]
      constructor
      · exact_mod_cast Int.le_floor.mpr (by push_cast; linarith)
      · have hf := Int.floor_le (sem * (8/10) + 1/2)
        have : (⌊sem * (8/10) + 1/2⌋ : ℚ) ≤ 100 := by linarith
        exact_mod_cast this
    · exfalso
      obtain ⟨⟨a, ha⟩, ⟨b, hb⟩, ⟨c, hc⟩, ⟨d, hd⟩⟩ := hsucc
      simp_all

/-- C2 witness: the in-range conclusion evaluated at semantic 90 on the
all-successful environment. -/
theorem selection_probability_range_witness :
    0 ≤ (generateFeedback "resume" "job" 90
      ⟨.ok ["a"], .ok ["a"], .ok (some 50), .ok ⟨[], [], []⟩⟩).selection_probability ∧
    (generateFeedback "resume" "job" 90
      ⟨.ok ["a"], .ok ["a"], .ok (some 50), .ok ⟨[], [], []⟩⟩).selection_probability ≤ 100 :=
  selection_probability_range "resume" "job" 90 _ (Or.inl ⟨by norm_num, by norm_num⟩)

/-! ### Claim C1 -/

/-- C1: when all steps of `generateFeedback` succeed, the returned
`selection_probability` is `round(semantic*0.6 + skill*0.3 +
experience*0.1)` clamped to `[0, 100]`; in particular semantic 90,
skill 80, experience 50 yield `round(54 + 24 + 5) = 83`. -/
theorem selection_probability_formula (resumeText jobDescription : String)
    (sem : ℚ) (env : LLMEnv) (rs js : List String) (sf : Option ℚ) (ins : InsightPayload)
    (h1 : env.resumeSkills = .ok rs) (h2 : env.jobSkills = .ok js)
    (h3 : env.experienceScoreField = .ok sf) (h4 : env.insights = .ok ins) :
    ((generateFeedback resumeText jobDescription sem env).selection_probability =
      min 100 (max 0 (jsRound
        ((generateFeedback resumeText jobDescription sem env).semantic_similarity_score * (6/10) +
         (generateFeedback resumeText jobDescription sem env).skill_coverage_score * (3/10) +
         (generateFeedback resumeText jobDescription sem env).experience_alignment_score * (1/10))))) ∧
    (sem = 90 →
      (generateFeedback resumeText jobDescription sem env).skill_coverage_score = 80 →
      (generateFeedback resumeText jobDescription sem env).experience_alignment_score = 50 →
      (generateFeedback resumeText jobDescription sem env).selection_probability = 83) := by
  obtain ⟨ea, eb, ec, ed⟩ := env
  cases h1; cases h2; cases h3; cases h4
  constructor
  · simp [generateFeedback]
  · intro hs hsk he
    simp only [generateFeedback] at hsk he ⊢
    rw [hs, hsk, he]
    norm_num [jsRound]

/-- Concrete coverage value 80 used by the C1 witness: of the five job
skills, four are substrings of the single resume skill `"abcd"` and
`"zzzzz"` matches neither exactly nor fuzzily. -/
theorem coverage_eval_80 :
    calculateSkillCoverage ["abcd"] ["a", "ab", "abc", "abcd", "zzzzz"] = 80 := by
  have s1 : calculateStringSimilarity "a" "abcd" = 1/4 := by
    have hd : lev ['a', 'b', 'c', 'd'] ['a'] = 3 := by
      rw [lev_eq_levenshtein]; decide
    simp only [calculateStringSimilarity, levenshteinDistance]
    norm_num [show "a".length = 1 from rfl, show "abcd".length = 4 from rfl, hd]
  have s2 : calculateStringSimilarity "ab" "abcd" = 1/2 := by
    have hd : lev ['a', 'b', 'c', 'd'] ['a', 'b'] = 2 := by
      rw [lev_eq_levenshtein]; decide
    simp only [calculateStringSimilarity, levenshteinDistance]
    norm_num [show "ab".length = 2 from rfl, show "abcd".length = 4 from rfl, hd]
  have s3 : calculateStringSimilarity "abc" "abcd" = 3/4 := by
    have hd : lev ['a', 'b', 'c', 'd'] ['a', 'b', 'c'] = 1 := by
      rw [lev_eq_levenshtein]; decide
    simp only [calculateStringSimilarity, levenshteinDistance]
    norm_num [show "abc".length = 3 from rfl, show "abcd".length = 4 from rfl, hd]
  have s4 : calculateStringSimilarity "abcd" "abcd" = 1 := calculateStringSimilarity_self _
  have s5 : calculateStringSimilarity "zzzzz" "abcd" = 0 := by
    have hd : lev ['z', 'z', 'z', 'z', 'z'] ['a', 'b', 'c', 'd'] = 5 := by
      rw [lev_eq_levenshtein]; decide
    simp only [calculateStringSimilarity, levenshteinDistance]
    norm_num [show "zzzzz".length = 5 from rfl, show "abcd".length = 4 from rfl, hd]
  have p1 : decide (calculateStringSimilarity "a" "abcd" > (7:ℚ)/10) = false :=
    decide_eq_false (by rw [s1]; norm_num)
  have p2 : decide (calculateStringSimilarity "ab" "abcd" > (7:ℚ)/10) = false :=
    decide_eq_false (by rw [s2]; norm_num)
  have p3 : decide (calculateStringSimilarity "abc" "abcd" > (7:ℚ)/10) = true :=
    decide_eq_true (by rw [s3]; norm_num)
  have p4 : decide (calculateStringSimilarity "abcd" "abcd" > (7:ℚ)/10) = true :=
    decide_eq_true (by rw [s4]; norm_num)
  have p5 : decide (calculateStringSimilarity "zzzzz" "abcd" > (7:ℚ)/10) = false :=
    decide_eq_false (by rw [s5]; norm_num)
  simp only [calculateSkillCoverage, List.map_cons, List.map_nil,
    show jsToLower "abcd" = "abcd" from by decide,
    show jsToLower "a" = "a" from by decide,
    show jsToLower "ab" = "ab" from by decide,
    show jsToLower "abc" = "abc" from by decide,
    show jsToLower "zzzzz" = "zzzzz" from by decide,
    List.filter_cons, List.filter_nil, List.any_cons, List.any_nil,
    show strIncludes "abcd" "a" = true from by decide,
    show strIncludes "abcd" "ab" = true from by decide,
    show strIncludes "abcd" "abc" = true from by decide,
    show strIncludes "abcd" "abcd" = true from by decide,
    show strIncludes "abcd" "zzzzz" = false from by decide,
    show strIncludes "zzzzz" "abcd" = false from by decide,
    show strIncludes "a" "abcd" = false from by decide,
    show strIncludes "ab" "abcd" = false from by decide,
    show strIncludes "abc" "abcd" = false from by decide,
    show strIncludes "zzzzz" "abcd" = false from by decide,
    p1, p2, p3, p4, p5, Bool.or_false, Bool.false_or, Bool.true_or, Bool.or_true,
    Bool.or_self, List.length_cons, List.length_nil, if_true, if_false,
    Bool.false_eq_true]
  rw [show ((["a", "ab", "abc", "abcd"] ++ ["abc", "abcd"] : List String)).dedup.length = 4
    from by decide]
  norm_num [jsRound]

/-- C1 witness: a concrete all-successful run with semantic 90, skill
coverage 80 and experience 50 returns selection probability 83. -/
theorem selection_probability_formula_witness :
    (generateFeedback "resume" "job" 90
      ⟨.ok ["abcd"], .ok ["a", "ab", "abc", "abcd", "zzzzz"],
        .ok (some 50), .ok ⟨[], [], []⟩⟩).selection_probability = 83 :=
  (selection_probability_formula "resume" "job" 90 _ _ _ _ _ rfl rfl rfl rfl).2
    rfl
    (by simp [generateFeedback, coverage_eval_80])
    (by norm_num [generateFeedback, calculateExperienceAlignment, jsOrQ])

/-! ### Claim C5 -/

/-- Counting distinct elements of two filters of the same list equals
counting the deduplicated list filtered by the disjunction. -/
theorem filter_append_dedup_length {α : Type} [DecidableEq α]
    (l : List α) (p q : α → Bool) :
    ((l.filter p) ++ (l.filter q)).dedup.length =
      (l.dedup.filter (fun x => p x || q x)).length := by
  have h1 : ((l.filter p) ++ (l.filter q)).dedup.length =
      ((l.filter p) ++ (l.filter q)).toFinset.card :=
    (List.card_toFinset _).symm
  have h2 : (l.dedup.filter (fun x => p x || q x)).length =
      (l.dedup.filter (fun x => p x || q x)).toFinset.card :=
    (List.toFinset_card_of_nodup ((l.nodup_dedup).filter _)).symm
  rw [h1, h2]
  congr 1
  ext x
  simp only [List.mem_toFinset, List.mem_append, List.mem_filter, List.mem_dedup,
    Bool.or_eq_true]
  tauto

/-- C5 counterexample: resume skill `"abcdefgxyz"` and job skill
`"abcdefghij"` have similarity exactly `0.7` and no substring
containment; the source's strict `> 0.7` comparison leaves the job skill
unmatched (coverage 0), while the claim's "at least 0.7" reading would
match it (coverage 100). -/
theorem skillCoverage_threshold_counterexample :
    calculateSkillCoverage ["abcdefgxyz"] ["abcdefghij"] = 0 ∧
    calculateSkillCoverageSpec ["abcdefgxyz"] ["abcdefghij"] = 100 := by
  refine ⟨coverage_boundary_eval, ?_⟩
  have hpart : decide (calculateStringSimilarity "abcdefghij" "abcdefgxyz" ≥ (7:ℚ)/10)
      = true :=
    decide_eq_true (ge_of_eq sim_boundary_value)
  simp only [calculateSkillCoverageSpec, List.map_cons, List.map_nil,
    show jsToLower "abcdefgxyz" = "abcdefgxyz" from by decide,
    show jsToLower "abcdefghij" = "abcdefghij" from by decide,
    List.filter_cons, List.filter_nil, List.any_cons, List.any_nil,
    show strIncludes "abcdefgxyz" "abcdefghij" = false from by decide,
    show strIncludes "abcdefghij" "abcdefgxyz" = false from by decide,
    hpart, Bool.or_false, Bool.false_or, Bool.or_self,
    List.length_cons, List.length_nil, if_true, if_false, Bool.false_eq_true]
  norm_num [jsRound]

/-- C5 amended: `calculateSkillCoverage` returns 100 on an empty job
list, and otherwise `round(100 · |unique matched job skills| / |job
skills|)` where a job skill is matched iff some resume skill contains it
(or conversely, case-insensitively) or has normalized Levenshtein
similarity *strictly above* `0.7` with it; the result always lies in
`[0, 100]`. -/
theorem skillCoverage_amended (rs js : List String) :
    (js.length = 0 → calculateSkillCoverage rs js = 100) ∧
    (js.length ≠ 0 → calculateSkillCoverage rs js =
      jsRound ((((js.map jsToLower).dedup.filter (jobSkillMatched rs)).length : ℚ) /
        (js.length : ℚ) * 100)) ∧
    (0 ≤ calculateSkillCoverage rs js ∧ calculateSkillCoverage rs js ≤ 100) := by
  have hform : js.length ≠ 0 → calculateSkillCoverage rs js =
      jsRound ((((js.map jsToLower).dedup.filter (jobSkillMatched rs)).length : ℚ) /
        (js.length : ℚ) * 100) := by
    intro hne
    simp only [calculateSkillCoverage, if_neg hne]
    rw [filter_append_dedup_length]
    rfl
  refine ⟨fun h0 => by simp [calculateSkillCoverage, h0], hform, ?_⟩
  by_cases hne : js.length = 0
  · simp [calculateSkillCoverage, hne]
  · rw [hform hne]
    set m := ((js.map jsToLower).dedup.filter (jobSkillMatched rs)).length with hm
    have hmn : m ≤ js.length := by
      calc m ≤ (js.map jsToLower).dedup.length := List.length_filter_le _ _
        _ ≤ (js.map jsToLower).length := (List.dedup_sublist _).length_le
        _ = js.length := List.length_map _ _
    have hn0 : (0:ℚ) < (js.length : ℚ) := by
      have : 0 < js.length := Nat.pos_of_ne_zero hne
      exact_mod_cast this
    have hx0 : (0:ℚ) ≤ (m : ℚ) / (js.length : ℚ) * 100 := by positivity
    have hx1 : (m : ℚ) / (js.length : ℚ) * 100 ≤ 100 := by
      have hdiv : (m : ℚ) / (js.length : ℚ) ≤ 1 :=
        (div_le_one hn0).mpr (by exact_mod_cast hmn)
      nlinarith
    constructor
    · rw [jsRound]
      exact_mod_cast Int.le_floor.mpr (by push_cast; linarith)
    · rw [jsRound]
      have hle : ⌊(m : ℚ) / (js.length : ℚ) * 100 + 1/2⌋ ≤ 100 :=
        Int.floor_le_iff.mpr (by push_cast; linarith)
      exact_mod_cast hle

/-- C5 witness: the amended formula and range evaluated at a concrete
nonempty job list. -/
theorem skillCoverage_amended_witness :
    (calculateSkillCoverage ["a"] ["b"] =
      jsRound ((((["b"].map jsToLower).dedup.filter (jobSkillMatched ["a"])).length : ℚ) /
        ((["b"] : List String).length : ℚ) * 100)) ∧
    (0 ≤ calculateSkillCoverage ["a"] ["b"] ∧ calculateSkillCoverage ["a"] ["b"] ≤ 100) :=
  ⟨(skillCoverage_amended ["a"] ["b"]).2.1 (by decide),
   (skillCoverage_amended ["a"] ["b"]).2.2⟩

/-! ### Claim C7 -/

/-- C7: a cache at capacity receiving one more distinct key evicts
exactly the first-inserted entry still present; every other entry
survives in order and the new entry is appended. -/
theorem cache_insert_at_capacity_evicts_oldest {α : Type} (c : MemoryCache α)
    (k : String) (v : α) (now : Int)
    (hfull : c.entries.length = c.config.maxSize)
    (hpos : 1 ≤ c.config.maxSize)
    (hnew : ∀ p ∈ c.entries, p.1 ≠ k) :
    (c.set k v now none).entries =
      c.entries.tail ++ [(k, ⟨v, now, c.config.defaultTTL⟩)] := by
  obtain ⟨entries, config⟩ := c
  cases entries with
  | nil => simp at hfull hpos; omega
  | cons hd tl =>
    obtain ⟨h0, e0⟩ := hd
    have hcond : config.maxSize ≤ ((h0, e0) :: tl).length := le_of_eq hfull.symm
    have hdel : mapDelete ((h0, e0) :: tl) h0 = tl := by
      simp [mapDelete, List.eraseP_cons]
    have hnot : tl.any (fun p => p.1 == k) = false := by
      simp only [List.any_eq_false]
      intro p hp
      simpa using hnew p (List.mem_cons_of_mem _ hp)
    simp only [MemoryCache.set, if_pos hcond, hdel, mapSet, hnot,
      Bool.false_eq_true, if_false, jsOrInt, List.tail_cons]

/-- C7 witness: a two-entry cache of capacity 2 receiving a third key
keeps only the second entry and the new one. -/
theorem cache_insert_at_capacity_evicts_oldest_witness :
    (MemoryCache.set
      (⟨[("a", ⟨(1 : Int), 0, 5⟩), ("b", ⟨2, 0, 5⟩)], ⟨5, 2⟩⟩ : MemoryCache Int)
      "c" 3 0 none).entries =
      [("b", ⟨2, 0, 5⟩), ("c", ⟨3, 0, 5⟩)] :=
  cache_insert_at_capacity_evicts_oldest
    (⟨[("a", ⟨(1 : Int), 0, 5⟩), ("b", ⟨2, 0, 5⟩)], ⟨5, 2⟩⟩ : MemoryCache Int)
    "c" 3 0 rfl (by decide) (by decide)

/-! ### Claim C10 -/

theorem mapSet_length {α : Type} (l : List (String × α)) (k : String) (v : α) :
    (mapSet l k v).length =
      if l.any (fun p => p.1 == k) then l.length else l.length + 1 := by
  unfold mapSet
  split <;> simp

theorem set_entries_length_le {α : Type} (c : MemoryCache α) (k : String) (v : α)
    (now : Int) (ttl : Option Int)
    (hpos : 1 ≤ c.config.maxSize)
    (hinv : c.entries.length ≤ c.config.maxSize) :
    (c.set k v now ttl).entries.length ≤ c.config.maxSize := by
  obtain ⟨entries, config⟩ := c
  simp only [MemoryCache.set]
  by_cases hcond : config.maxSize ≤ entries.length
  · rw [if_pos hcond]
    cases entries with
    | nil => simp at hpos hcond; omega
    | cons hd tl =>
      obtain ⟨h0, e0⟩ := hd
      have hdel : mapDelete ((h0, e0) :: tl) h0 = tl := by
        simp [mapDelete, List.eraseP_cons]
      simp only [hdel, mapSet_length]
      simp only [List.length_cons] at hinv
      split <;> omega
  · rw [if_neg hcond]
    simp only [mapSet_length]
    split <;> omega

theorem applyOp_config {α : Type} (c : MemoryCache α) (op : CacheOp α) :
    (c.applyOp op).config = c.config := by
  cases op with
  | set k v now ttl =>
    simp only [MemoryCache.applyOp, MemoryCache.set]
    split
    · split <;> rfl
    · rfl
  | get k now =>
    simp only [MemoryCache.applyOp, MemoryCache.get]
    rcases hf : c.entries.find? (fun p => p.1 == k) with _ | ⟨_, e⟩
    · simp only [hf]
    · simp only [hf]
      split <;> rfl
  | del k => rfl
  | cleanup now => rfl

theorem applyOp_entries_length_le {α : Type} (c : MemoryCache α) (op : CacheOp α)
    (hpos : 1 ≤ c.config.maxSize)
    (hinv : c.entries.length ≤ c.config.maxSize) :
    (c.applyOp op).entries.length ≤ c.config.maxSize := by
  cases op with
  | set k v now ttl => exact set_entries_length_le c k v now ttl hpos hinv
  | get k now =>
    simp only [MemoryCache.applyOp, MemoryCache.get]
    rcases hf : c.entries.find? (fun p => p.1 == k) with _ | ⟨_, e⟩
    · simp only [hf]
      exact hinv
    · simp only [hf]
      split
      · exact le_trans ((List.eraseP_sublist _).length_le) hinv
      · exact hinv
  | del k => exact le_trans ((List.eraseP_sublist _).length_le) hinv
  | cleanup now => exact le_trans ((List.filter_sublist _).length_le) hinv

theorem foldl_applyOp_config {α : Type} (ops : List (CacheOp α)) (c : MemoryCache α) :
    (ops.foldl MemoryCache.applyOp c).config = c.config := by
  induction ops generalizing c with
  | nil => rfl
  | cons op rest ih => rw [List.foldl_cons, ih, applyOp_config]

theorem foldl_applyOp_length_le {α : Type} (ops : List (CacheOp α)) (c : MemoryCache α)
    (hpos : 1 ≤ c.config.maxSize)
    (hinv : c.entries.length ≤ c.config.maxSize) :
    (ops.foldl MemoryCache.applyOp c).entries.length ≤ c.config.maxSize := by
  induction ops generalizing c with
  | nil => exact hinv
  | cons op rest ih =>
    rw [List.foldl_cons]
    have hcfg := applyOp_config c op
    have := ih (c.applyOp op) (hcfg ▸ hpos) (hcfg ▸ applyOp_entries_length_le c op hpos hinv)
    rwa [hcfg] at this

/-- C10: for every sequence of cache operations from an empty cache with
`maxSize ≥ 1`, the number of stored entries never exceeds `maxSize`;
moreover a `set` performed at (or beyond) capacity always evicts the
oldest-inserted key, even when the key being written already exists, so
updating an existing entry at capacity evicts an unrelated entry. -/
theorem cache_size_invariant_and_update_eviction {α : Type} :
    (∀ (config : CacheConfig) (ops : List (CacheOp α)), 1 ≤ config.maxSize →
      (ops.foldl MemoryCache.applyOp (MemoryCache.empty α config)).entries.length ≤
        config.maxSize) ∧
    (∀ (c : MemoryCache α) (k : String) (v : α) (now : Int) (ttl : Option Int)
      (h0 : String) (e0 : CacheEntry α) (tl : List (String × CacheEntry α)),
      c.entries = (h0, e0) :: tl →
      c.config.maxSize ≤ c.entries.length →
      k ≠ h0 →
      (∀ p ∈ tl, p.1 ≠ h0) →
      tl.any (fun p => p.1 == k) = true →
      (c.set k v now ttl).entries =
        tl.map (fun p => if p.1 == k then (k, ⟨v, now, jsOrInt ttl c.config.defaultTTL⟩) else p) ∧
      ∀ p ∈ (c.set k v now ttl).entries, p.1 ≠ h0) := by
  constructor
  · intro config ops hpos
    exact foldl_applyOp_length_le ops (MemoryCache.empty α config) hpos (by simp [MemoryCache.empty])
  · intro c k v now ttl h0 e0 tl hent hcap hk hns hmem
    obtain ⟨entries, config⟩ := c
    simp only at hent
    subst hent
    have hdel : mapDelete ((h0, e0) :: tl) h0 = tl := by
      simp [mapDelete, List.eraseP_cons]
    have hset : mapSet tl k (⟨v, now, jsOrInt ttl config.defaultTTL⟩ : CacheEntry α) =
        tl.map (fun p => if p.1 == k then (k, ⟨v, now, jsOrInt ttl config.defaultTTL⟩) else p) := by
      simp only [mapSet, hmem, if_pos]
    have hres : (MemoryCache.set ⟨(h0, e0) :: tl, config⟩ k v now ttl).entries =
        tl.map (fun p => if p.1 == k then (k, ⟨v, now, jsOrInt ttl config.defaultTTL⟩) else p) := by
      simp only [MemoryCache.set, if_pos hcap, hdel, hset]
    refine ⟨hres, ?_⟩
    rw [hres]
    intro p hp
    obtain ⟨q, hq, hpq⟩ := List.mem_map.mp hp
    by_cases hqk : (q.1 == k) = true
    · rw [if_pos hqk] at hpq
      rw [← hpq]
      exact hk
    · rw [if_neg hqk] at hpq
      rw [← hpq]
      exact hns q hq

/-- C10 witness: three distinct inserts into an empty capacity-2 cache
stay within the bound, and updating key `"b"` of a full two-entry cache
evicts the unrelated oldest key `"a"`. -/
theorem cache_size_invariant_and_update_eviction_witness :
    (([CacheOp.set "a" (1 : Int) 0 none, CacheOp.set "b" 2 0 none,
        CacheOp.set "c" 3 0 none].foldl MemoryCache.applyOp
        (MemoryCache.empty Int ⟨5, 2⟩)).entries.length ≤ 2) ∧
    ((MemoryCache.set
        (⟨[("a", ⟨(1 : Int), 0, 5⟩), ("b", ⟨2, 0, 5⟩)], ⟨5, 2⟩⟩ : MemoryCache Int)
        "b" 9 4 none).entries = [("b", ⟨9, 4, 5⟩)] ∧
      ∀ p ∈ (MemoryCache.set
        (⟨[("a", ⟨(1 : Int), 0, 5⟩), ("b", ⟨2, 0, 5⟩)], ⟨5, 2⟩⟩ : MemoryCache Int)
        "b" 9 4 none).entries, p.1 ≠ "a") := by
  constructor
  · exact (cache_size_invariant_and_update_eviction (α := Int)).1 ⟨5, 2⟩ _ (by decide)
  · exact (cache_size_invariant_and_update_eviction (α := Int)).2
      (⟨[("a", ⟨(1 : Int), 0, 5⟩), ("b", ⟨2, 0, 5⟩)], ⟨5, 2⟩⟩ : MemoryCache Int)
      "b" 9 4 none "a" ⟨1, 0, 5⟩ [("b", ⟨2, 0, 5⟩)]
      rfl (by decide) (by decide) (by decide) (by decide)

/-! ### Claim C4 -/

/-- C4 evaluation at the failing input: with similarity `0.69` the route
answers `not_a_good_fit` and creates no Tailor, but the stored job's
status remains `"pending"` — the route never persists `not_a_good_fit`
(only `fit_score` is written), although the dashboard reads that stored
status.  With similarity `0.70` the job is stored as `processed` with
exactly one `pending_review` Tailor, as claimed. -/
theorem processJob_status_divergence :
    ((processJob ⟨[⟨"j1", "u1", "d", "pending", none⟩], [], []⟩
        ⟨"j1", "u1", "d", "pending", none⟩ (69/100) ⟨"tr", "cl", "pf", 0⟩ "t1").2.respStatus =
          some "not_a_good_fit" ∧
      (processJob ⟨[⟨"j1", "u1", "d", "pending", none⟩], [], []⟩
        ⟨"j1", "u1", "d", "pending", none⟩ (69/100) ⟨"tr", "cl", "pf", 0⟩ "t1").1.jobs.map
          Job.status = ["pending"] ∧
      (processJob ⟨[⟨"j1", "u1", "d", "pending", none⟩], [], []⟩
        ⟨"j1", "u1", "d", "pending", none⟩ (69/100) ⟨"tr", "cl", "pf", 0⟩ "t1").1.tailors = []) ∧
    ((processJob ⟨[⟨"j1", "u1", "d", "pending", none⟩], [], []⟩
        ⟨"j1", "u1", "d", "pending", none⟩ (70/100) ⟨"tr", "cl", "pf", 0⟩ "t1").2.respStatus =
          some "processed" ∧
      (processJob ⟨[⟨"j1", "u1", "d", "pending", none⟩], [], []⟩
        ⟨"j1", "u1", "d", "pending", none⟩ (70/100) ⟨"tr", "cl", "pf", 0⟩ "t1").1.jobs.map
          Job.status = ["processed"] ∧
      (processJob ⟨[⟨"j1", "u1", "d", "pending", none⟩], [], []⟩
        ⟨"j1", "u1", "d", "pending", none⟩ (70/100) ⟨"tr", "cl", "pf", 0⟩ "t1").1.tailors.map
          TailorRow.status = ["pending_review"]) := by
  have h69 : jsRound ((69/100 : ℚ) * 100) = 69 := by norm_num [jsRound]
  have h70 : jsRound ((70/100 : ℚ) * 100) = 70 := by norm_num [jsRound]
  have e69 : processJob ⟨[⟨"j1", "u1", "d", "pending", none⟩], [], []⟩
      ⟨"j1", "u1", "d", "pending", none⟩ (69/100) ⟨"tr", "cl", "pf", 0⟩ "t1" =
      (⟨[⟨"j1", "u1", "d", "pending", some 69⟩], [], []⟩,
        ⟨200, some 69, some "not_a_good_fit", none⟩) := by
    simp only [processJob, h69]
    rw [if_pos (by norm_num : (69:ℚ) < 70)]
    simp
  have e70 : processJob ⟨[⟨"j1", "u1", "d", "pending", none⟩], [], []⟩
      ⟨"j1", "u1", "d", "pending", none⟩ (70/100) ⟨"tr", "cl", "pf", 0⟩ "t1" =
      (⟨[⟨"j1", "u1", "d", "processed", some 70⟩],
        [⟨"t1", "j1", "u1", "tr", "cl", "pf", some 70, 0, "pending_review"⟩], []⟩,
        ⟨200, some 70, some "processed", some "t1"⟩) := by
    simp only [processJob, h70]
    rw [if_neg (by norm_num : ¬ ((70:ℚ) < 70))]
    simp
  refine ⟨⟨?_, ?_, ?_⟩, ?_, ?_, ?_⟩ <;> simp [e69, e70]

/-! ### Claim C6 -/

/-- C6 counterexample: a second feedback-generation request for a Tailor
that already has a Feedback row is answered with HTTP 409 (an error
response, `"Feedback already exists for this tailor"`), not a no-op
success, though no second row is inserted. -/
theorem duplicate_feedback_conflict_counterexample :
    (feedbackGeneratePost
      ⟨[], [⟨"t1", "j1", "u1", "tr", "cl", "pf", some 80, 0, "pending_review"⟩],
        [⟨"u1", "j1", "t1", 50, 50, 50, 50, [], [], [], "v1.0"⟩]⟩
      "u1" "t1" "r" "j" ⟨.ok [], .ok [], .ok (some 50), .ok ⟨[], [], []⟩⟩).2 = 409 ∧
    (feedbackGeneratePost
      ⟨[], [⟨"t1", "j1", "u1", "tr", "cl", "pf", some 80, 0, "pending_review"⟩],
        [⟨"u1", "j1", "t1", 50, 50, 50, 50, [], [], [], "v1.0"⟩]⟩
      "u1" "t1" "r" "j" ⟨.ok [], .ok [], .ok (some 50), .ok ⟨[], [], []⟩⟩).1.feedback.length
      = 1 := by
  constructor <;> rfl

/-- C6 amended: invoking feedback generation twice for the same Tailor
leaves exactly one Feedback row, detected by the existence check before
insert.  In the asynchronous job-processing path the duplicate is a
silent no-op; in the explicit feedback-generation endpoint the duplicate
is answered with a 409 conflict error rather than a no-op success. -/
theorem feedback_idempotence_amended :
    (∀ (db : JobsDB) (tid rt jd rt2 jd2 : String) (env env2 : LLMEnv) (t : TailorRow),
      db.feedback.countP (fun f => f.tailor_id == tid) = 0 →
      db.tailors.find? (fun x => x.id == tid) = some t →
      ((generateFeedbackAsync db tid rt jd env).feedback.countP
          (fun f => f.tailor_id == tid) = 1 ∧
        generateFeedbackAsync (generateFeedbackAsync db tid rt jd env) tid rt2 jd2 env2 =
          generateFeedbackAsync db tid rt jd env)) ∧
    (∀ (db : JobsDB) (uid tid rt jd : String) (env : LLMEnv) (t : TailorRow),
      db.tailors.find? (fun x => x.id == tid && x.user_id == uid) = some t →
      db.feedback.any (fun f => f.tailor_id == tid) = true →
      feedbackGeneratePost db uid tid rt jd env = (db, 409)) := by
  constructor
  · intro db tid rt jd rt2 jd2 env env2 t h0 ht
    have hany : db.feedback.any (fun f => f.tailor_id == tid) = false := by
      rw [List.any_eq_false]
      intro f hf
      simpa using List.countP_eq_zero.mp h0 f hf
    have h1 : generateFeedbackAsync db tid rt jd env =
        { db with feedback := db.feedback ++
          [mkFeedbackRow t.user_id t.job_id tid
            (generateFeedback rt jd (jsOrQ t.fit_score 0) env)] } := by
      simp only [generateFeedbackAsync, hany, Bool.false_eq_true, if_false, ht]
    constructor
    · rw [h1]
      simp only [List.countP_append, h0, mkFeedbackRow]
      simp [List.countP_cons]
    · rw [h1]
      simp [generateFeedbackAsync, List.any_append, mkFeedbackRow]
  · intro db uid tid rt jd env t ht hany
    simp only [feedbackGeneratePost, ht, hany, Bool.true_eq_false, if_pos]

/-- C6 witness: a concrete first invocation inserts the single row and a
repeat invocation is the identity; a concrete duplicate request to the
explicit endpoint is answered 409. -/
theorem feedback_idempotence_amended_witness :
    ((generateFeedbackAsync
        ⟨[], [⟨"t1", "j1", "u1", "tr", "cl", "pf", some 80, 0, "pending_review"⟩], []⟩
        "t1" "r" "j" ⟨.ok [], .ok [], .ok (some 50), .ok ⟨[], [], []⟩⟩).feedback.countP
        (fun f => f.tailor_id == "t1") = 1 ∧
      generateFeedbackAsync
        (generateFeedbackAsync
          ⟨[], [⟨"t1", "j1", "u1", "tr", "cl", "pf", some 80, 0, "pending_review"⟩], []⟩
          "t1" "r" "j" ⟨.ok [], .ok [], .ok (some 50), .ok ⟨[], [], []⟩⟩)
        "t1" "r2" "j2" ⟨.error (), .error (), .error (), .error ()⟩ =
        generateFeedbackAsync
          ⟨[], [⟨"t1", "j1", "u1", "tr", "cl", "pf", some 80, 0, "pending_review"⟩], []⟩
          "t1" "r" "j" ⟨.ok [], .ok [], .ok (some 50), .ok ⟨[], [], []⟩⟩) ∧
    (feedbackGeneratePost
      ⟨[], [⟨"t1", "j1", "u1", "tr", "cl", "pf", some 80, 0, "pending_review"⟩],
        [⟨"u1", "j1", "t1", 50, 50, 50, 50, [], [], [], "v1.0"⟩]⟩
      "u1" "t1" "r" "j" ⟨.ok [], .ok [], .ok (some 50), .ok ⟨[], [], []⟩⟩ =
      (⟨[], [⟨"t1", "j1", "u1", "tr", "cl", "pf", some 80, 0, "pending_review"⟩],
        [⟨"u1", "j1", "t1", 50, 50, 50, 50, [], [], [], "v1.0"⟩]⟩, 409)) :=
  ⟨feedback_idempotence_amended.1
      ⟨[], [⟨"t1", "j1", "u1", "tr", "cl", "pf", some 80, 0, "pending_review"⟩], []⟩
      "t1" "r" "j" "r2" "j2" ⟨.ok [], .ok [], .ok (some 50), .ok ⟨[], [], []⟩⟩
      ⟨.error (), .error (), .error (), .error ()⟩
      ⟨"t1", "j1", "u1", "tr", "cl", "pf", some 80, 0, "pending_review"⟩ rfl rfl,
    feedback_idempotence_amended.2
      ⟨[], [⟨"t1", "j1", "u1", "tr", "cl", "pf", some 80, 0, "pending_review"⟩],
        [⟨"u1", "j1", "t1", 50, 50, 50, 50, [], [], [], "v1.0"⟩]⟩
      "u1" "t1" "r" "j" ⟨.ok [], .ok [], .ok (some 50), .ok ⟨[], [], []⟩⟩
      ⟨"t1", "j1", "u1", "tr", "cl", "pf", some 80, 0, "pending_review"⟩ rfl rfl⟩

end Workify
